import Mathlib

/-!
# Verification of `Assignment 2/Assignment2.py`

Shallow embedding of the prompt-engineering demo script.  Every technique
method of the Python class `PromptEngineeringDemo` builds an f-string from its
`problem`/`task` argument, wraps it in a dictionary of metadata, prints it and
returns it.  We model:

* Python dict records as Lean structures.  Different technique records carry
  different keys, so the record structure has optional fields; a `none` / `[]`
  field models an absent dict key.  The `examples` key holds values of two
  different shapes (a list of task dicts for zero-shot, a dict of two template
  strings for few-shot), so it is split into the fields `zs_examples` and
  `fs_examples`.  The `example` key (a Lean keyword) becomes `worked_example`.
* `print` calls as pure text production: each render function returns exactly
  the text the corresponding `_print_*` helper writes to stdout (each `print(x)`
  contributes `x` followed by a newline).
* methods as state-passing functions `PromptEngineeringDemo → ... →
  result × PromptEngineeringDemo`; no method of the source ever assigns to an
  attribute of `self`, so every method returns its receiver unchanged.
* `datetime.now().isoformat()` as an explicit clock argument `ts`.

Dictionaries preserve insertion order in Python, so dicts whose entries matter
in order are association lists.
-/

set_option linter.unusedVariables false
set_option maxRecDepth 40000

/-- Python `s.ljust`-style padding as done by the f-string format `{s:<w}`:
pad on the right with spaces to a minimum width `w`; longer strings are kept
unchanged (never truncated). -/
def ljust (s : String) (w : Nat) : String :=
  s ++ String.mk (List.replicate (w - s.length) ' ')

/-- `patAtFront pat l = true` iff the character list `pat` is a prefix of `l`. -/
def patAtFront : List Char → List Char → Bool
  | [], _ => true
  | _ :: _, [] => false
  | p :: ps, c :: cs => p == c && patAtFront ps cs

/-- `patSomewhere pat l = true` iff `pat` occurs contiguously somewhere in `l`. -/
def patSomewhere : List Char → List Char → Bool
  | pat, [] => patAtFront pat []
  | pat, c :: cs => patAtFront pat (c :: cs) || patSomewhere pat cs

/-- Python's `pat in s` substring test, on the underlying character lists. -/
def strContainsB (s pat : String) : Bool :=
  patSomewhere pat.data s.data

/-- One entry of the zero-shot `examples` list (a dict with the keys
`task`, `prompt`, `expected_output`). -/
structure ZeroShotExample where
  task : String
  prompt : String
  expected_output : String
deriving DecidableEq

/-- The per-style sub-dict of `_compare_zero_few_shot` (keys `prompt`,
`characteristics`, `accuracy`). -/
structure ShotProfile where
  prompt : String
  characteristics : String
  accuracy : String
deriving DecidableEq

/-- The dict returned by `_compare_zero_few_shot`. -/
structure ZeroFewComparison where
  scenario : String
  zero_shot : ShotProfile
  few_shot : ShotProfile
  improvement : String
deriving DecidableEq

/-- A technique record: the dict returned by each approach method.  Optional
fields model dict keys that are present only in some records; the field
defaults correspond to the key being absent from the dict. -/
structure TechniqueRecord where
  approach : String
  description : String
  /-- interview only: list of `(label, prompt)` tuples under the key `prompts`. -/
  prompts : List (String × String) := []
  /-- cot / tot / zero-shot: the single template under the key `prompt`. -/
  prompt : Option String := none
  advantages : Option (List String) := none
  disadvantages : Option (List String) := none
  best_for : Option (List String) := none
  /-- cot / tot: the `example` key, a dict of strings. -/
  worked_example : List (String × String) := []
  /-- zero-shot: the `examples` key, a list of example dicts. -/
  zs_examples : List ZeroShotExample := []
  /-- few-shot: the `examples` key, a dict of two named template strings. -/
  fs_examples : List (String × String) := []
  comparison_with_zero_shot : Option ZeroFewComparison := none
deriving DecidableEq

/-- The per-technique metrics sub-dict of `comparison_table`. -/
structure ApproachMetrics where
  complexity : String
  interactions : String
  token_usage : String
  accuracy : String
  use_time : String
deriving DecidableEq

/-- The dict returned by `comprehensive_comparison`. -/
structure Comparison where
  comparison_table : List (String × ApproachMetrics)
  selection_guide : List (String × String)
  performance_metrics : List (String × List (String × String))
deriving DecidableEq

/-- The dict built by `demonstrate_all_approaches` (keys `problem`,
`timestamp`, `approaches`, and `comparison` added at the end). -/
structure RunResult where
  problem : String
  timestamp : String
  approaches : List (String × TechniqueRecord)
  comparison : Comparison
deriving DecidableEq

/-- One value of the `practical_applications_analysis` dict. -/
structure AppDetails where
  real_world_scenarios : List String
  industry_examples : List (String × String)
deriving DecidableEq

/-- The demo object.  Its only attribute is `self.results`, set to `{}` by
`__init__`.  The dict is never written or read afterwards, so its value type
is unconstrained by the source; we pick an association list of records. -/
structure PromptEngineeringDemo where
  results : List (String × TechniqueRecord)
deriving DecidableEq

/-- `PromptEngineeringDemo.__init__`: `self.results = {}`. -/
def PromptEngineeringDemo.init : PromptEngineeringDemo :=
  { results := [] }

/-- `interview_approach`: three f-string prompts interpolating `problem`,
plus fixed metadata lists. -/
def PromptEngineeringDemo.interview_approach (self : PromptEngineeringDemo)
    (problem : String) : TechniqueRecord × PromptEngineeringDemo :=
  let initial_prompt :=
    "\nProblem to solve: " ++ problem ++
    "\n\nAs an expert interviewer, please ask 3-5 clarifying questions to better \nunderstand this problem before providing a solution.\n"
  let clarifying_questions :=
    "\nBased on the problem: " ++ problem ++
    "\n\nClarifying Questions:\n1. What are the constraints or limitations?\n2. What is the expected output format?\n3. Are there any edge cases to consider?\n4. What is the priority: speed, accuracy, or resource efficiency?\n5. What is the scale of data we're working with?\n\nNow, let's assume the following answers:\n1. Standard computational constraints\n2. Clear, structured output\n3. Handle null/empty inputs\n4. Balance between accuracy and speed\n5. Small to medium datasets\n\nWith these clarifications, please provide a detailed solution.\n"
  let solution_prompt :=
    "\nGiven the problem: " ++ problem ++
    "\nWith the clarifications provided above,\n\nPlease provide:\n1. A step-by-step solution\n2. Code implementation (if applicable)\n3. Potential optimizations\n4. Testing strategy\n"
  ({ approach := "Interview Approach"
     description := "Iterative questioning to gather context before solving"
     prompts := [("Initial", initial_prompt),
                 ("Clarification", clarifying_questions),
                 ("Solution", solution_prompt)]
     advantages := some
       ["Clarifies ambiguous requirements",
        "Ensures comprehensive understanding",
        "Reduces misinterpretation",
        "Builds context incrementally"]
     disadvantages := some
       ["Requires multiple interactions",
        "More time-consuming",
        "May need human intervention for responses"]
     best_for := some
       ["Complex, ambiguous problems",
        "Requirements gathering",
        "Stakeholder engagement scenarios"] }, self)

/-- `_cot_example`: the hard-coded worked chain-of-thought example dict. -/
def PromptEngineeringDemo.cot_example : List (String × String) :=
  [("problem",
    "If a store has 35 apples and sells 3/5 of them, then receives a new shipment of 28 apples, how many apples does it have?"),
   ("cot_solution",
    "\nLet's solve this step by step:\n\nStep 1: Calculate apples sold\n- Total apples: 35\n- Fraction sold: 3/5\n- Apples sold = 35 × (3/5) = 35 × 3 / 5 = 105 / 5 = 21 apples\n\nStep 2: Calculate remaining apples after sale\n- Remaining = 35 - 21 = 14 apples\n\nStep 3: Add new shipment\n- New shipment: 28 apples\n- Total = 14 + 28 = 42 apples\n\nFinal answer: The store has 42 apples.\n\nVerification: Started with 35, sold 21 (leaves 14), added 28 (equals 42) ✓\n")]

/-- `chain_of_thought`: a single f-string prompt interpolating `problem`,
fixed metadata, and the worked example from `_cot_example`. -/
def PromptEngineeringDemo.chain_of_thought (self : PromptEngineeringDemo)
    (problem : String) : TechniqueRecord × PromptEngineeringDemo :=
  let prompt :=
    "\nProblem: " ++ problem ++
    "\n\nLet's solve this step by step:\n\nStep 1: Understand the problem\n- Break down what we're asked to do\n- Identify key components\n\nStep 2: Plan the approach\n- What method or algorithm should we use?\n- What are the intermediate steps?\n\nStep 3: Execute each step\n- Show detailed working for each step\n- Explain the reasoning at each stage\n\nStep 4: Verify the solution\n- Check if the answer makes sense\n- Consider edge cases\n\nPlease work through this problem following these steps, showing all your \nreasoning and intermediate calculations.\n"
  ({ approach := "Chain of Thought (CoT)"
     description := "Step-by-step reasoning with explicit intermediate steps"
     prompt := some prompt
     advantages := some
       ["Improves accuracy on complex problems",
        "Makes reasoning transparent and verifiable",
        "Helps catch errors in logic",
        "Better for multi-step problems"]
     disadvantages := some
       ["Longer responses",
        "More tokens/cost",
        "May be overkill for simple problems"]
     best_for := some
       ["Mathematical problems",
        "Logical reasoning tasks",
        "Multi-step procedures",
        "Problems requiring explanation"]
     worked_example := PromptEngineeringDemo.cot_example }, self)

/-- `_tot_example`: the hard-coded worked tree-of-thought example dict. -/
def PromptEngineeringDemo.tot_example : List (String × String) :=
  [("problem", "Design a system to reduce website load time"),
   ("tot_solution",
    "\nBRANCH 1: Frontend Optimization\n├─ Minify CSS/JS\n├─ Image optimization\n└─ Evaluation: Quick wins, 20-30% improvement, easy implementation\n\nBRANCH 2: Backend Optimization\n├─ Database indexing\n├─ Query optimization\n└─ Evaluation: 30-40% improvement, medium complexity\n\nBRANCH 3: Infrastructure Upgrade\n├─ CDN implementation\n├─ Caching layers\n└─ Evaluation: 50-60% improvement, high initial cost\n\nSELECTED: Hybrid approach combining Branch 1 (immediate) + Branch 2 (medium-term)\nRationale: Best ROI with manageable complexity\n")]

/-- `tree_of_thought`: a single f-string prompt interpolating `problem`,
fixed metadata, and the worked example from `_tot_example`. -/
def PromptEngineeringDemo.tree_of_thought (self : PromptEngineeringDemo)
    (problem : String) : TechniqueRecord × PromptEngineeringDemo :=
  let prompt :=
    "\nProblem: " ++ problem ++
    "\n\nLet's explore multiple solution paths using Tree of Thought approach:\n\nBRANCH 1: Analytical Approach\n├─ Step 1.1: [First analytical step]\n├─ Step 1.2: [Second analytical step]\n└─ Evaluation: [Assess feasibility, pros/cons]\n\nBRANCH 2: Creative Approach\n├─ Step 2.1: [First creative alternative]\n├─ Step 2.2: [Second creative step]\n└─ Evaluation: [Assess feasibility, pros/cons]\n\nBRANCH 3: Hybrid Approach\n├─ Step 3.1: [Combine elements from above]\n├─ Step 3.2: [Optimize the combination]\n└─ Evaluation: [Assess feasibility, pros/cons]\n\nEVALUATION CRITERIA:\n- Efficiency\n- Accuracy\n- Scalability\n- Implementation complexity\n\nFINAL DECISION:\nBased on the evaluations, select the best approach and explain why.\nProvide the complete solution using the chosen path.\n"
  ({ approach := "Tree of Thought (ToT)"
     description := "Explores multiple reasoning paths, evaluates and selects best"
     prompt := some prompt
     advantages := some
       ["Explores diverse solution strategies",
        "Can find optimal solutions",
        "Evaluates trade-offs explicitly",
        "Good for complex strategic problems"]
     disadvantages := some
       ["Computationally expensive",
        "Requires multiple generations",
        "Can be overwhelming for simple problems",
        "Needs good evaluation criteria"]
     best_for := some
       ["Strategic planning",
        "Complex optimization problems",
        "Creative problem solving",
        "When multiple approaches exist"]
     worked_example := PromptEngineeringDemo.tot_example }, self)

/-- `zero_shot_prompting`: a single f-string prompt interpolating `task`,
three hard-coded example dicts, and fixed metadata. -/
def PromptEngineeringDemo.zero_shot_prompting (self : PromptEngineeringDemo)
    (task : String) : TechniqueRecord × PromptEngineeringDemo :=
  let prompt :=
    "\nTask: " ++ task ++
    "\n\nPlease complete this task directly.\n"
  let examples : List ZeroShotExample :=
    [{ task := "Classify the sentiment: 'I absolutely loved this movie!'"
       prompt := "Classify the sentiment of this text: 'I absolutely loved this movie!'"
       expected_output := "Positive" },
     { task := "Translate to French: 'Hello, how are you?'"
       prompt := "Translate to French: 'Hello, how are you?'"
       expected_output := "Bonjour, comment allez-vous?" },
     { task := "Summarize: [Long text about AI]"
       prompt := "Summarize this text in one sentence: [AI is transforming industries...]"
       expected_output := "AI is revolutionizing multiple industries through automation and intelligence." }]
  ({ approach := "Zero-shot Prompting"
     description := "Direct instruction without examples"
     prompt := some prompt
     zs_examples := examples
     advantages := some
       ["Simple and concise",
        "No need for examples",
        "Fast to implement",
        "Lower token usage"]
     disadvantages := some
       ["May misinterpret task",
        "Less control over output format",
        "Lower accuracy on complex tasks",
        "Depends heavily on model capability"]
     best_for := some
       ["Simple, well-defined tasks",
        "Common tasks the model knows well",
        "When examples aren't available",
        "Quick prototyping"] }, self)

/-- `_compare_zero_few_shot`: the hard-coded zero-shot vs few-shot dict. -/
def PromptEngineeringDemo.compare_zero_few_shot : ZeroFewComparison :=
  { scenario := "Email categorization"
    zero_shot :=
      { prompt := "Categorize this email: 'Meeting at 3pm tomorrow'"
        characteristics := "Simple, direct, may vary in response"
        accuracy := "60-70% (depending on task complexity)" }
    few_shot :=
      { prompt := "\nExample 1: \"Project deadline extended\" -> Category: Work\nExample 2: \"Dinner reservation confirmed\" -> Category: Personal\nExample 3: \"Team meeting at 2pm\" -> Category: Work\n\nCategorize: \"Meeting at 3pm tomorrow\" "
        characteristics := "Learns from patterns, more consistent"
        accuracy := "80-90% (improved through examples)" }
    improvement := "15-25% accuracy increase with few-shot" }

/-- `few_shot_prompting`: two fixed (non-interpolating) template strings, fixed
metadata, and the zero-vs-few comparison.  The `task` parameter is declared in
the source but never used in the body. -/
def PromptEngineeringDemo.few_shot_prompting (self : PromptEngineeringDemo)
    (task : String) : TechniqueRecord × PromptEngineeringDemo :=
  let sentiment_prompt :=
    "\nClassify the sentiment of the following texts as Positive, Negative, or Neutral.\n\nExample 1:\nText: \"This product exceeded my expectations!\"\nSentiment: Positive\n\nExample 2:\nText: \"Terrible service, would not recommend.\"\nSentiment: Negative\n\nExample 3:\nText: \"The item arrived on time.\"\nSentiment: Neutral\n\nNow classify:\nText: \"Amazing quality and fast shipping!\"\nSentiment: "
  let formatting_prompt :=
    "\nConvert the following information into a structured format.\n\nExample 1:\nInput: John Smith works at Google as a Software Engineer since 2020\nOutput: \x7b\"name\": \"John Smith\", \"company\": \"Google\", \"role\": \"Software Engineer\", \"year\": 2020\x7d\n\nExample 2:\nInput: Sarah Johnson is a Data Scientist at Microsoft starting 2019\nOutput: \x7b\"name\": \"Sarah Johnson\", \"company\": \"Microsoft\", \"role\": \"Data Scientist\", \"year\": 2019\x7d\n\nExample 3:\nInput: Mike Brown, Product Manager, Amazon, 2021\nOutput: \x7b\"name\": \"Mike Brown\", \"company\": \"Amazon\", \"role\": \"Product Manager\", \"year\": 2021\x7d\n\nNow convert:\nInput: Emily Davis is a UX Designer at Apple beginning in 2022\nOutput: "
  ({ approach := "Few-shot Prompting"
     description := "Provides examples to demonstrate the desired pattern"
     fs_examples := [("sentiment_classification", sentiment_prompt),
                     ("structured_formatting", formatting_prompt)]
     advantages := some
       ["Better accuracy than zero-shot",
        "Controls output format",
        "Teaches specific patterns",
        "More consistent results"]
     disadvantages := some
       ["Requires good examples",
        "Uses more tokens",
        "Example selection is critical",
        "May not generalize well"]
     best_for := some
       ["Tasks requiring specific format",
        "Style matching",
        "Pattern recognition tasks",
        "When you have good examples"]
     comparison_with_zero_shot := some PromptEngineeringDemo.compare_zero_few_shot }, self)

/-- The hard-coded dict literal built inside `comprehensive_comparison`. -/
def comparison_value : Comparison :=
  { comparison_table :=
      [("Interview Approach",
        { complexity := "Medium"
          interactions := "Multiple"
          token_usage := "High"
          accuracy := "High (with good questions)"
          use_time := "When requirements unclear" }),
       ("Chain of Thought",
        { complexity := "Medium"
          interactions := "Single"
          token_usage := "Medium-High"
          accuracy := "High (for reasoning tasks)"
          use_time := "For step-by-step problems" }),
       ("Tree of Thought",
        { complexity := "High"
          interactions := "Multiple branches"
          token_usage := "Very High"
          accuracy := "Very High (explores options)"
          use_time := "Complex strategic problems" }),
       ("Zero-shot",
        { complexity := "Low"
          interactions := "Single"
          token_usage := "Low"
          accuracy := "Medium (model-dependent)"
          use_time := "Simple, clear tasks" }),
       ("Few-shot",
        { complexity := "Low-Medium"
          interactions := "Single"
          token_usage := "Medium"
          accuracy := "High (with good examples)"
          use_time := "Pattern-matching tasks" })]
    selection_guide :=
      [("Simple classification", "Zero-shot or Few-shot"),
       ("Math problems", "Chain of Thought"),
       ("Strategic planning", "Tree of Thought"),
       ("Unclear requirements", "Interview Approach"),
       ("Format-specific output", "Few-shot"),
       ("Logical reasoning", "Chain of Thought"),
       ("Creative problem solving", "Tree of Thought"),
       ("Quick prototyping", "Zero-shot")]
    performance_metrics :=
      [("Speed",
        [("1st", "Zero-shot"), ("2nd", "Few-shot"), ("3rd", "Chain of Thought"),
         ("4th", "Interview Approach"), ("5th", "Tree of Thought")]),
       ("Accuracy",
        [("1st", "Tree of Thought"), ("2nd", "Chain of Thought"), ("3rd", "Few-shot"),
         ("4th", "Interview Approach"), ("5th", "Zero-shot")]),
       ("Cost_Efficiency",
        [("1st", "Zero-shot"), ("2nd", "Few-shot"), ("3rd", "Chain of Thought"),
         ("4th", "Interview Approach"), ("5th", "Tree of Thought")])] }

/-- `comprehensive_comparison`: returns the hard-coded comparison dict.  The
method reads nothing from `self` (its only side effect is printing). -/
def PromptEngineeringDemo.comprehensive_comparison (self : PromptEngineeringDemo) :
    Comparison × PromptEngineeringDemo :=
  (comparison_value, self)

/-- `demonstrate_all_approaches`: runs the five approach methods in fixed
order on the same `problem`, then `comprehensive_comparison`, and aggregates
everything into one results dict.  `ts` is the `datetime.now().isoformat()`
clock reading. -/
def PromptEngineeringDemo.demonstrate_all_approaches (self : PromptEngineeringDemo)
    (problem ts : String) : RunResult × PromptEngineeringDemo :=
  let (r_interview, s1) := self.interview_approach problem
  let (r_cot, s2) := s1.chain_of_thought problem
  let (r_tot, s3) := s2.tree_of_thought problem
  let (r_zero, s4) := s3.zero_shot_prompting problem
  let (r_few, s5) := s4.few_shot_prompting problem
  let (cmp, s6) := s5.comprehensive_comparison
  ({ problem := problem
     timestamp := ts
     approaches := [("interview", r_interview), ("cot", r_cot), ("tot", r_tot),
                    ("zero_shot", r_zero), ("few_shot", r_few)]
     comparison := cmp }, s6)

/-- The hard-coded dict literal built inside `practical_applications_analysis`. -/
def applications_value : List (String × AppDetails) :=
  [("Interview Approach",
    { real_world_scenarios :=
        ["Medical diagnosis systems (clarifying symptoms)",
         "Legal document analysis (understanding context)",
         "Customer service chatbots (gathering information)",
         "Requirements engineering in software development"]
      industry_examples :=
        [("Healthcare", "Patient intake systems that ask follow-up questions"),
         ("Finance", "Loan application assistants that clarify financial situations"),
         ("Education", "Adaptive learning systems that assess student understanding")] }),
   ("Chain of Thought",
    { real_world_scenarios :=
        ["Mathematical problem solvers",
         "Code debugging assistants",
         "Scientific reasoning tools",
         "Legal argument construction"]
      industry_examples :=
        [("Education", "Tutoring systems that show work step-by-step"),
         ("Finance", "Risk assessment with transparent reasoning"),
         ("Engineering", "Design validation with clear justification")] }),
   ("Tree of Thought",
    { real_world_scenarios :=
        ["Strategic business planning",
         "Game AI (chess, go)",
         "Drug discovery (exploring molecular combinations)",
         "Architecture design (evaluating multiple designs)"]
      industry_examples :=
        [("Business", "Market entry strategy evaluation"),
         ("Research", "Hypothesis exploration in scientific research"),
         ("Creative", "Story plot development with multiple branches")] }),
   ("Zero-shot",
    { real_world_scenarios :=
        ["Sentiment analysis",
         "Simple translations",
         "Text summarization",
         "Spam detection"]
      industry_examples :=
        [("Social Media", "Content moderation"),
         ("E-commerce", "Product review analysis"),
         ("News", "Article categorization")] }),
   ("Few-shot",
    { real_world_scenarios :=
        ["Custom format conversion",
         "Style-specific content generation",
         "Brand voice matching",
         "Domain-specific classification"]
      industry_examples :=
        [("Marketing", "Ad copy generation in brand voice"),
         ("Legal", "Contract clause extraction"),
         ("Healthcare", "Medical report formatting")] })]

/-- `practical_applications_analysis`: returns the hard-coded applications
dict; reads and writes nothing on `self`. -/
def PromptEngineeringDemo.practical_applications_analysis (self : PromptEngineeringDemo) :
    List (String × AppDetails) × PromptEngineeringDemo :=
  (applications_value, self)

/-- `_print_approach_details`: the text written to stdout when pretty-printing
a record.  Each of the three metadata sections is fetched with
`result.get(key, [])`, so a missing list renders as an empty section. -/
def PromptEngineeringDemo._print_approach_details (result : TechniqueRecord) : String :=
  "\nApproach: " ++ result.approach ++ "\n" ++
  "Description: " ++ result.description ++ "\n" ++
  "\nAdvantages:\n" ++
  String.join ((result.advantages.getD []).map (fun adv => "  ✓ " ++ adv ++ "\n")) ++
  "\nDisadvantages:\n" ++
  String.join ((result.disadvantages.getD []).map (fun dis => "  ✗ " ++ dis ++ "\n")) ++
  "\nBest For:\n" ++
  String.join ((result.best_for.getD []).map (fun use => "  • " ++ use ++ "\n"))

/-- The `"-" * 70` separator line. -/
def sepLine : String := String.mk (List.replicate 70 '-')

/-- One row of the comparison table: the f-string
`f"⟨approach:<20⟩ ⟨complexity:<12⟩ ⟨token_usage:<10⟩ ⟨accuracy:<15⟩"`
(left-justified minimum widths 20, 12, 10 and 15, single-space separators). -/
def comparisonRow (approach : String) (metrics : ApproachMetrics) : String :=
  ljust approach 20 ++ " " ++ ljust metrics.complexity 12 ++ " " ++
  ljust metrics.token_usage 10 ++ " " ++ ljust metrics.accuracy 15

/-- `_print_comparison`: the text written to stdout for a comparison dict —
the fixed-width comparison table, then the selection guide, then the
performance rankings. -/
def PromptEngineeringDemo._print_comparison (comparison : Comparison) : String :=
  "\nCOMPARISON TABLE:\n" ++
  sepLine ++ "\n" ++
  ljust "Approach" 20 ++ " " ++ ljust "Complexity" 12 ++ " " ++
  ljust "Tokens" 10 ++ " " ++ ljust "Accuracy" 15 ++ "\n" ++
  sepLine ++ "\n" ++
  String.join (comparison.comparison_table.map
    (fun p => comparisonRow p.1 p.2 ++ "\n")) ++
  "\n\nSELECTION GUIDE:\n" ++
  sepLine ++ "\n" ++
  String.join (comparison.selection_guide.map
    (fun p => "  " ++ p.1 ++ ": " ++ p.2 ++ "\n")) ++
  "\n\nPERFORMANCE RANKINGS:\n" ++
  sepLine ++ "\n" ++
  String.join (comparison.performance_metrics.map
    (fun p => "\n" ++ p.1 ++ ":\n" ++
      String.join (p.2.map (fun q => "  " ++ q.1 ++ ": " ++ q.2 ++ "\n"))))

/-- The fixed example problem string hard-coded in `main`. -/
def example_problem : String :=
  "Design an efficient algorithm to find duplicate elements in an array"

/-- `main` of the script (named `script_main` here because Lean reserves
`main` for executables): constructs a fresh demo, runs all approaches on the hard-coded
`example_problem`, runs the practical-applications analysis, and returns the
run results.  (The remaining calls in `main` only print fixed text.)  `main`
takes no problem argument in the source; `ts` is the clock reading. -/
def script_main (ts : String) : RunResult :=
  let demo := PromptEngineeringDemo.init
  let (results, d1) := demo.demonstrate_all_approaches example_problem ts
  let (applications, d2) := d1.practical_applications_analysis
  results

/-- The script's `if __name__ == "__main__": main()` entry.  Nothing in the
source ever reads the process's command-line arguments (there is no `sys.argv`,
`argparse` or `input()` use), so the entry point ignores `argv` entirely and
always runs `main` as is. -/
def entryPoint (argv : List String) (ts : String) : RunResult :=
  script_main ts

/-- One public operation on the demo object, for reasoning about arbitrary
call sequences. -/
inductive DemoOp where
  | interviewCall (problem : String)
  | cotCall (problem : String)
  | totCall (problem : String)
  | zeroShotCall (task : String)
  | fewShotCall (task : String)
  | comparisonCall
  | demonstrateAllCall (problem ts : String)
  | applicationsCall
deriving DecidableEq

/-- The state transition of one method call (the returned value is dropped). -/
def applyOp (d : PromptEngineeringDemo) : DemoOp → PromptEngineeringDemo
  | .interviewCall p => (d.interview_approach p).2
  | .cotCall p => (d.chain_of_thought p).2
  | .totCall p => (d.tree_of_thought p).2
  | .zeroShotCall t => (d.zero_shot_prompting t).2
  | .fewShotCall t => (d.few_shot_prompting t).2
  | .comparisonCall => d.comprehensive_comparison.2
  | .demonstrateAllCall p ts => (d.demonstrate_all_approaches p ts).2
  | .applicationsCall => d.practical_applications_analysis.2

/-- The state after an arbitrary sequence of method calls. -/
def applyOps (d : PromptEngineeringDemo) : List DemoOp → PromptEngineeringDemo
  | [] => d
  | op :: ops => applyOps (applyOp d op) ops

/-! ## Helper lemmas about the substring test -/

theorem patAtFront_self_append (p b : List Char) : patAtFront p (p ++ b) = true := by
  induction p with
  | nil => rfl
  | cons c cs ih => simp [patAtFront, ih]

theorem patSomewhere_of_front {p l : List Char} (h : patAtFront p l = true) :
    patSomewhere p l = true := by
  cases l with
  | nil => simpa [patSomewhere] using h
  | cons c cs => simp [patSomewhere, h]

theorem patSomewhere_append_left (a : List Char) {p l : List Char}
    (h : patSomewhere p l = true) : patSomewhere p (a ++ l) = true := by
  induction a with
  | nil => simpa using h
  | cons c cs ih => simp [patSomewhere, ih]

/-- Interpolating a string between two fixed pieces always yields a text that
contains it verbatim. -/
theorem strContainsB_append (a p b : String) : strContainsB (a ++ p ++ b) p = true := by
  unfold strContainsB
  rw [String.data_append, String.data_append, List.append_assoc]
  exact patSomewhere_append_left a.data
    (patSomewhere_of_front (patAtFront_self_append p.data b.data))

/-! ## Claim theorems -/

/-- C1, counterexample.  At problem `"XYZZY"`, the few-shot record's name
field (`approach` key) is `"Few-shot Prompting"`, not the identifier
`"few_shot"`, and neither of its two rendered templates (`examples` key)
contains `"XYZZY"`; the interview record's name field likewise differs from
the identifier `"interview"`. -/
theorem describe_name_and_template_cex :
    ((PromptEngineeringDemo.init.few_shot_prompting "XYZZY").1.approach = "few_shot" →
      False) ∧
    ((PromptEngineeringDemo.init.few_shot_prompting "XYZZY").1.fs_examples.all
      (fun pr => strContainsB pr.2 "XYZZY")) = false ∧
    ((PromptEngineeringDemo.init.interview_approach "XYZZY").1.approach = "interview" →
      False) := by
  refine ⟨?_, ?_, ?_⟩ <;> decide

/-- C1, amended.  For every problem string, the records returned by the four
problem-interpolating describe operations have their `approach` name field
equal to the technique's fixed display name and every rendered prompt template
in the record contains the problem string verbatim; the few-shot record's
name field is its display name `"Few-shot Prompting"` and the record is one
fixed value that never interpolates the problem. -/
theorem describe_name_and_template (d : PromptEngineeringDemo) (problem : String) :
    (d.interview_approach problem).1.approach = "Interview Approach" ∧
    ((d.interview_approach problem).1.prompts.all
      (fun pr => strContainsB pr.2 problem)) = true ∧
    (d.chain_of_thought problem).1.approach = "Chain of Thought (CoT)" ∧
    strContainsB ((d.chain_of_thought problem).1.prompt.getD "") problem = true ∧
    (d.tree_of_thought problem).1.approach = "Tree of Thought (ToT)" ∧
    strContainsB ((d.tree_of_thought problem).1.prompt.getD "") problem = true ∧
    (d.zero_shot_prompting problem).1.approach = "Zero-shot Prompting" ∧
    strContainsB ((d.zero_shot_prompting problem).1.prompt.getD "") problem = true ∧
    (d.few_shot_prompting problem).1.approach = "Few-shot Prompting" ∧
    (d.few_shot_prompting problem).1 = (d.few_shot_prompting "").1 := by
  refine ⟨rfl, ?_, rfl, ?_, rfl, ?_, rfl, ?_, rfl, rfl⟩
  · simp [PromptEngineeringDemo.interview_approach, strContainsB_append]
  · simp [PromptEngineeringDemo.chain_of_thought, strContainsB_append]
  · simp [PromptEngineeringDemo.tree_of_thought, strContainsB_append]
  · simp [PromptEngineeringDemo.zero_shot_prompting, strContainsB_append]

/-- C2.  For every problem string (the empty string included) and every clock
reading, `demonstrate_all_approaches` returns a result whose `approaches`
mapping has exactly the five technique entries, inserted in the fixed order
interview, chain-of-thought, tree-of-thought, zero-shot, few-shot, each entry
being the corresponding describe record, with the comparison being the value
`comprehensive_comparison` returns after the five describe calls. -/
theorem run_all_five_entries_fixed_order (d : PromptEngineeringDemo)
    (problem ts : String) :
    (d.demonstrate_all_approaches problem ts).1.approaches.map Prod.fst
        = ["interview", "cot", "tot", "zero_shot", "few_shot"] ∧
    (d.demonstrate_all_approaches problem ts).1.approaches.length = 5 ∧
    (d.demonstrate_all_approaches problem ts).1.approaches =
      [("interview", (d.interview_approach problem).1),
       ("cot", (d.chain_of_thought problem).1),
       ("tot", (d.tree_of_thought problem).1),
       ("zero_shot", (d.zero_shot_prompting problem).1),
       ("few_shot", (d.few_shot_prompting problem).1)] ∧
    (d.demonstrate_all_approaches problem ts).1.comparison =
      (d.comprehensive_comparison).1 :=
  ⟨rfl, rfl, rfl, rfl⟩

/-- C3, counterexample.  The entry point ignores any caller-supplied
problem/task string: invoked with the argument `"Sort a linked list in
place"`, the run still uses the hard-coded example problem, not the supplied
string (`main()` takes no parameter and nothing reads the command line). -/
theorem entry_point_ignores_caller_problem_cex :
    (entryPoint ["Sort a linked list in place"] "2024-01-01T00:00:00").problem
        = example_problem ∧
    ((entryPoint ["Sort a linked list in place"] "2024-01-01T00:00:00").problem
        = "Sort a linked list in place" → False) :=
  ⟨rfl, by decide⟩

/-- C3, amended.  The entry point accepts no problem/task string from the
caller: whatever arguments are passed, it always runs on the one fixed
example problem string. -/
theorem entry_point_fixed_problem (argv : List String) (ts : String) :
    (entryPoint argv ts).problem = example_problem :=
  rfl

/-- C4.  Rendering a record that is missing one of the `advantages`,
`disadvantages` or `best_for` lists never fails (the renderer is a total
function), treats the missing list exactly like an empty one, and produces an
empty bulleted section for it, as the concrete fully-evaluated output shows. -/
theorem render_record_missing_lists (r : TechniqueRecord) :
    PromptEngineeringDemo._print_approach_details { r with advantages := none } =
      PromptEngineeringDemo._print_approach_details { r with advantages := some [] } ∧
    PromptEngineeringDemo._print_approach_details { r with disadvantages := none } =
      PromptEngineeringDemo._print_approach_details { r with disadvantages := some [] } ∧
    PromptEngineeringDemo._print_approach_details { r with best_for := none } =
      PromptEngineeringDemo._print_approach_details { r with best_for := some [] } ∧
    PromptEngineeringDemo._print_approach_details
        { approach := "Interview Approach",
          description := "Iterative questioning to gather context before solving" } =
      "\nApproach: Interview Approach\nDescription: Iterative questioning to gather context before solving\n\nAdvantages:\n\nDisadvantages:\n\nBest For:\n" :=
  ⟨rfl, rfl, rfl, by decide⟩

/-- C5.  `comprehensive_comparison` is pure and idempotent: its returned
table is the same fixed value after any sequence of prior operations on the
demo object, and calling it twice in a row returns structurally equal
tables. -/
theorem comprehensive_comparison_pure (d : PromptEngineeringDemo)
    (ops : List DemoOp) :
    ((applyOps d ops).comprehensive_comparison).1 = (d.comprehensive_comparison).1 ∧
    ((d.comprehensive_comparison).2.comprehensive_comparison).1 =
      (d.comprehensive_comparison).1 ∧
    (d.comprehensive_comparison).1 = comparison_value :=
  ⟨rfl, rfl, rfl⟩

/-- C6.  Rendering the table returned by `comprehensive_comparison` via
`_print_comparison` yields, as its comparison-table section, the title, a
separator, a header line, a separator, and then exactly one row line per
technique — five rows, one per technique in insertion order — with every
field left-justified at the fixed minimum column widths 20, 12, 10 and 15
(the first equation keeps the `++` seams of the renderer and replaces each
computed piece by its evaluated text). -/
theorem comparison_table_layout :
    (PromptEngineeringDemo._print_comparison comparison_value =
      "\nCOMPARISON TABLE:\n" ++ sepLine ++ "\n" ++
      "Approach            " ++ " " ++ "Complexity  " ++ " " ++ "Tokens    " ++
      " " ++ "Accuracy       " ++ "\n" ++
      sepLine ++ "\n" ++
      "Interview Approach   Medium       High       High (with good questions)\nChain of Thought     Medium       Medium-High High (for reasoning tasks)\nTree of Thought      High         Very High  Very High (explores options)\nZero-shot            Low          Low        Medium (model-dependent)\nFew-shot             Low-Medium   Medium     High (with good examples)\n" ++
      "\n\nSELECTION GUIDE:\n" ++ sepLine ++ "\n" ++
      "  Simple classification: Zero-shot or Few-shot\n  Math problems: Chain of Thought\n  Strategic planning: Tree of Thought\n  Unclear requirements: Interview Approach\n  Format-specific output: Few-shot\n  Logical reasoning: Chain of Thought\n  Creative problem solving: Tree of Thought\n  Quick prototyping: Zero-shot\n" ++
      "\n\nPERFORMANCE RANKINGS:\n" ++ sepLine ++ "\n" ++
      "\nSpeed:\n  1st: Zero-shot\n  2nd: Few-shot\n  3rd: Chain of Thought\n  4th: Interview Approach\n  5th: Tree of Thought\n\nAccuracy:\n  1st: Tree of Thought\n  2nd: Chain of Thought\n  3rd: Few-shot\n  4th: Interview Approach\n  5th: Zero-shot\n\nCost_Efficiency:\n  1st: Zero-shot\n  2nd: Few-shot\n  3rd: Chain of Thought\n  4th: Interview Approach\n  5th: Tree of Thought\n") ∧
    comparison_value.comparison_table.map Prod.fst =
      ["Interview Approach", "Chain of Thought", "Tree of Thought",
       "Zero-shot", "Few-shot"] ∧
    comparison_value.comparison_table.length = 5 ∧
    comparison_value.comparison_table.map (fun p => comparisonRow p.1 p.2) =
      ["Interview Approach   Medium       High       High (with good questions)",
       "Chain of Thought     Medium       Medium-High High (for reasoning tasks)",
       "Tree of Thought      High         Very High  Very High (explores options)",
       "Zero-shot            Low          Low        Medium (model-dependent)",
       "Few-shot             Low-Medium   Medium     High (with good examples)"] := by
  refine ⟨?_, rfl, rfl, by decide⟩
  simp only [PromptEngineeringDemo._print_comparison]
  repeat' congr 1

/-- Helper for C7: no single method call changes the demo state. -/
theorem applyOp_results (d : PromptEngineeringDemo) (op : DemoOp) :
    (applyOp d op).results = d.results := by
  cases op <;> rfl

/-- Helper for C7: no call sequence changes the demo state's `results`. -/
theorem applyOps_results (ops : List DemoOp) (d : PromptEngineeringDemo) :
    (applyOps d ops).results = d.results := by
  induction ops generalizing d with
  | nil => rfl
  | cons op ops ih => rw [applyOps, ih, applyOp_results]

/-- C7.  `self.results` is initialized to the empty dict by the constructor
and after any sequence of calls to the describe operations,
`comprehensive_comparison`, `demonstrate_all_approaches` or
`practical_applications_analysis` it is still the empty mapping. -/
theorem results_dict_never_touched (ops : List DemoOp) :
    (applyOps PromptEngineeringDemo.init ops).results = [] ∧
    PromptEngineeringDemo.init.results = [] :=
  ⟨applyOps_results ops PromptEngineeringDemo.init, rfl⟩

/-- C8.  Every describe operation and `demonstrate_all_approaches` are total
functions of the input string (in the embedding they return plain values, not
`Option`/`Except` — nothing can raise); in particular, for every string,
including `""`, the run result's `problem` field equals the input and the
`approaches` mapping has five entries, each populated with a nonempty
approach name, description, and metadata lists. -/
theorem run_all_accepts_all_strings (d : PromptEngineeringDemo) (problem ts : String) :
    (d.demonstrate_all_approaches problem ts).1.problem = problem ∧
    (d.demonstrate_all_approaches problem ts).1.approaches.length = 5 ∧
    (d.demonstrate_all_approaches "" ts).1.problem = "" ∧
    ((d.demonstrate_all_approaches "" ts).1.approaches.all (fun e =>
      !e.2.approach.isEmpty && !e.2.description.isEmpty &&
      !(e.2.advantages.getD []).isEmpty && !(e.2.disadvantages.getD []).isEmpty &&
      !(e.2.best_for.getD []).isEmpty)) = true :=
  ⟨rfl, rfl, rfl, rfl⟩

/-- C9.  The chain-of-thought record for the problem `"2+2=?"` has a prompt
template containing the substring `"Problem: 2+2=?"` and an `advantages`
list of length at least 1. -/
theorem cot_scenario_two_plus_two :
    strContainsB ((PromptEngineeringDemo.init.chain_of_thought "2+2=?").1.prompt.getD "")
        "Problem: 2+2=?" = true ∧
    1 ≤ ((PromptEngineeringDemo.init.chain_of_thought "2+2=?").1.advantages.getD []).length :=
  ⟨by decide, by decide⟩

/-- C10.  `few_shot_prompting` never interpolates its `task` parameter:
for any two task strings the returned records are structurally equal. -/
theorem few_shot_ignores_task (d : PromptEngineeringDemo) (t1 t2 : String) :
    (d.few_shot_prompting t1).1 = (d.few_shot_prompting t2).1 :=
  rfl
